import Mathlib

/-!
Verification of the GROMACS Copilot workflow layer (shallow embedding).

Each definition below embeds one Python function or data structure of the
repository; doc comments name the source location.  External collaborators
(the shell, the filesystem) are modelled as oracles passed explicitly:
`String → HostOutcome` for the host starting a command, `String → Bool`
for local file writes succeeding.
-/

set_option maxHeartbeats 1000000
set_option maxRecDepth 8000

namespace GromacsCopilot

/-! ## Python string primitives used by the embedded code -/

/-- Whitespace test used by Python `str.strip` (the characters relevant to
this code base: space, tab, newline, carriage return). -/
def isSpc (c : Char) : Bool :=
  c = ' ' || c = '\t' || c = '\n' || c = '\r'

/-- Python `str.lstrip` on a character list. -/
def stripLeading (l : List Char) : List Char :=
  l.dropWhile isSpc

/-- Python `str.rstrip` on a character list. -/
def stripTrailing (l : List Char) : List Char :=
  (l.reverse.dropWhile isSpc).reverse

/-- Python `str.strip` on a character list. -/
def stripChars (l : List Char) : List Char :=
  stripTrailing (stripLeading l)

/-- Python `str.strip` on a `String`. -/
def pyStrip (s : String) : String :=
  String.mk (stripChars s.data)

/-- Prefix test on character lists (Python `str.startswith`). -/
def listStartsWith : List Char → List Char → Bool
  | _, [] => true
  | [], _ :: _ => false
  | c :: cs, p :: ps => c = p && listStartsWith cs ps

/-- Python slicing `s[:n]` on a `String`. -/
def strTake (n : Nat) (s : String) : String :=
  String.mk (s.data.take n)

/-! ## Command Runner — `gromacs_copilot/utils/shell.py` -/

/-- Behaviour of the host environment for one command: either the process
starts and finishes with an exit code and captured streams, or the host
cannot start it and raises (modelled as `startFail` with the exception
text). -/
inductive HostOutcome where
  | runs (returnCode : Int) (stdout stderr : String)
  | startFail (msg : String)
deriving Repr, DecidableEq

/-- The dictionary returned by `run_shell_command` (shell.py:55-61, 75-81,
89-96).  The `error` key is present only in the exception branch, hence
`Option`. -/
structure ShellResult where
  success : Bool
  return_code : Int
  stdout : String
  stderr : String
  command : String
  error : Option String
deriving Repr, DecidableEq

/-- `MessageType` from `gromacs_copilot/core/enums.py`. -/
inductive MessageType where
  | info | success | warning | error | title | system | user | command | tool | final
deriving Repr, DecidableEq

/-- A message emitted to the terminal sink: `print_message(text, type)`. -/
abbrev Msg := MessageType × String

/-- The trim threshold of shell.py:44 (`len(result.stdout) > 500`). -/
def trimThreshold : Nat := 500

/-- The truncation marker appended at shell.py:45. -/
def trimMarker : String := "...\n[Output trimmed for brevity]"

/-- `run_shell_command` from `gromacs_copilot/utils/shell.py:13-96`,
returning the result dictionary together with the list of messages printed
to the terminal sink. -/
def run_shell_command (command : String) (captureOutput : Bool) (suppressOutput : Bool)
    (env : String → HostOutcome) : ShellResult × List Msg :=
  let headMsgs : List Msg := if suppressOutput then [] else [(MessageType.command, command)]
  match env command with
  | .runs code out err =>
    if captureOutput then
      let tailMsgs : List Msg :=
        if suppressOutput then []
        else if code = 0 then
          if trimThreshold < out.length then
            [(MessageType.success,
              "Command succeeded with output:\n" ++ (strTake trimThreshold out ++ trimMarker))]
          else if pyStrip out ≠ "" then
            [(MessageType.success, "Command succeeded with output:\n" ++ out)]
          else
            [(MessageType.success, "Command succeeded with no output")]
        else
          [(MessageType.error, "Command failed with error:\n" ++ err)]
      (⟨decide (code = 0), code, out, err, command, none⟩, headMsgs ++ tailMsgs)
    else
      let tailMsgs : List Msg :=
        if suppressOutput then []
        else if code = 0 then [(MessageType.success, "Command succeeded")]
        else [(MessageType.error, "Command failed")]
      (⟨decide (code = 0), code, "Output not captured", "Error output not captured",
        command, none⟩, headMsgs ++ tailMsgs)
  | .startFail m =>
    let tailMsgs : List Msg :=
      if suppressOutput then [] else [(MessageType.error, "Command execution failed: " ++ m)]
    (⟨false, 1, "", m, command, some m⟩, headMsgs ++ tailMsgs)

/-- The result component of `run_shell_command` with the defaults used by
the protocol methods (`capture_output=True`, `suppress_output=False`). -/
def shellRes (env : String → HostOutcome) (cmd : String) : ShellResult :=
  (run_shell_command cmd true false env).1

/-! ## Parameter-file (MDP) generation — `src/gmx_copilot.py:508-697` and
`gromacs_copilot/config.py:29-164` (the two default tables are identical). -/

/-- A value in an MDP template.  Python stores ints, floats and strings;
a float is carried here as its Python `str()` rendering (e.g. `4.5e-05`),
which is what the f-string at gmx_copilot.py:677 writes. -/
inductive MdpVal where
  | vI (n : Int)
  | vF (rendered : String)
  | vS (s : String)
deriving Repr, DecidableEq

/-- Python `str(value)` for an MDP value. -/
def renderVal : MdpVal → String
  | .vI n => toString n
  | .vF r => r
  | .vS s => s

/-- Keys of an association list (insertion order preserved). -/
def keysOf (l : List (String × α)) : List String := l.map Prod.fst

/-- First-match lookup, mirroring Python dict access for duplicate-free
association lists. -/
def lookupA (k : String) : List (String × α) → Option α
  | [] => none
  | (k₁, v) :: t => if k₁ = k then some v else lookupA k t

/-- One step of Python `dict.update`: replace the value in place if the key
exists, otherwise append the pair at the end. -/
def updateOne (d : List (String × α)) (k : String) (v : α) : List (String × α) :=
  if d.any (fun p => p.1 = k) then
    d.map (fun p => if p.1 = k then (k, v) else p)
  else
    d ++ [(k, v)]

/-- Python `d.update(o)` on insertion-ordered dictionaries (gmx_copilot.py:667). -/
def pyUpdate (d o : List (String × α)) : List (String × α) :=
  o.foldl (fun acc p => updateOne acc p.1 p.2) d

def DEFAULT_MDP_PARAMS : List (String × List (String × MdpVal)) := [
  ("ions", [
    ("integrator", .vS "steep"),
    ("emtol", .vF "1000.0"),
    ("emstep", .vF "0.01"),
    ("nsteps", .vI 50000),
    ("nstlist", .vI 1),
    ("cutoff-scheme", .vS "Verlet"),
    ("ns_type", .vS "grid"),
    ("coulombtype", .vS "cutoff"),
    ("rcoulomb", .vF "1.0"),
    ("rvdw", .vF "1.0"),
    ("pbc", .vS "xyz")
  ]),
  ("em", [
    ("integrator", .vS "steep"),
    ("emtol", .vF "1000.0"),
    ("emstep", .vF "0.01"),
    ("nsteps", .vI 50000),
    ("nstlist", .vI 1),
    ("cutoff-scheme", .vS "Verlet"),
    ("ns_type", .vS "grid"),
    ("coulombtype", .vS "PME"),
    ("rcoulomb", .vF "1.0"),
    ("rvdw", .vF "1.0"),
    ("pbc", .vS "xyz")
  ]),
  ("nvt", [
    ("title", .vS "Protein-ligand complex NVT equilibration"),
    ("define", .vS "-DPOSRES"),
    ("integrator", .vS "md"),
    ("nsteps", .vI 50000),
    ("dt", .vF "0.002"),
    ("nstxout", .vI 500),
    ("nstvout", .vI 500),
    ("nstenergy", .vI 500),
    ("nstlog", .vI 500),
    ("continuation", .vS "no"),
    ("constraint_algorithm", .vS "lincs"),
    ("constraints", .vS "h-bonds"),
    ("lincs_iter", .vI 1),
    ("lincs_order", .vI 4),
    ("cutoff-scheme", .vS "Verlet"),
    ("ns_type", .vS "grid"),
    ("nstlist", .vI 10),
    ("rcoulomb", .vF "1.0"),
    ("rvdw", .vF "1.0"),
    ("DispCorr", .vS "EnerPres"),
    ("coulombtype", .vS "PME"),
    ("pme_order", .vI 4),
    ("fourierspacing", .vF "0.16"),
    ("tcoupl", .vS "V-rescale"),
    ("tc-grps", .vS "Protein Non-Protein"),
    ("tau_t", .vS "0.1 0.1"),
    ("ref_t", .vS "300 300"),
    ("pcoupl", .vS "no"),
    ("pbc", .vS "xyz"),
    ("gen_vel", .vS "yes"),
    ("gen_temp", .vI 300),
    ("gen_seed", .vI (-1))
  ]),
  ("npt", [
    ("title", .vS "Protein-ligand complex NPT equilibration"),
    ("define", .vS "-DPOSRES"),
    ("integrator", .vS "md"),
    ("nsteps", .vI 50000),
    ("dt", .vF "0.002"),
    ("nstxout", .vI 500),
    ("nstvout", .vI 500),
    ("nstenergy", .vI 500),
    ("nstlog", .vI 500),
    ("continuation", .vS "yes"),
    ("constraint_algorithm", .vS "lincs"),
    ("constraints", .vS "h-bonds"),
    ("lincs_iter", .vI 1),
    ("lincs_order", .vI 4),
    ("cutoff-scheme", .vS "Verlet"),
    ("ns_type", .vS "grid"),
    ("nstlist", .vI 10),
    ("rcoulomb", .vF "1.0"),
    ("rvdw", .vF "1.0"),
    ("DispCorr", .vS "EnerPres"),
    ("coulombtype", .vS "PME"),
    ("pme_order", .vI 4),
    ("fourierspacing", .vF "0.16"),
    ("tcoupl", .vS "V-rescale"),
    ("tc-grps", .vS "Protein Non-Protein"),
    ("tau_t", .vS "0.1 0.1"),
    ("ref_t", .vS "300 300"),
    ("pcoupl", .vS "Parrinello-Rahman"),
    ("pcoupltype", .vS "isotropic"),
    ("tau_p", .vF "2.0"),
    ("ref_p", .vF "1.0"),
    ("compressibility", .vF "4.5e-05"),
    ("refcoord_scaling", .vS "com"),
    ("pbc", .vS "xyz"),
    ("gen_vel", .vS "no")
  ]),
  ("md", [
    ("title", .vS "Protein-ligand complex MD simulation"),
    ("integrator", .vS "md"),
    ("nsteps", .vI 5000000),
    ("dt", .vF "0.002"),
    ("nstxout", .vI 5000),
    ("nstvout", .vI 5000),
    ("nstenergy", .vI 5000),
    ("nstlog", .vI 5000),
    ("nstxout-compressed", .vI 5000),
    ("compressed-x-grps", .vS "System"),
    ("continuation", .vS "yes"),
    ("constraint_algorithm", .vS "lincs"),
    ("constraints", .vS "h-bonds"),
    ("lincs_iter", .vI 1),
    ("lincs_order", .vI 4),
    ("cutoff-scheme", .vS "Verlet"),
    ("ns_type", .vS "grid"),
    ("nstlist", .vI 10),
    ("rcoulomb", .vF "1.0"),
    ("rvdw", .vF "1.0"),
    ("DispCorr", .vS "EnerPres"),
    ("coulombtype", .vS "PME"),
    ("pme_order", .vI 4),
    ("fourierspacing", .vF "0.16"),
    ("tcoupl", .vS "V-rescale"),
    ("tc-grps", .vS "Protein Non-Protein"),
    ("tau_t", .vS "0.1 0.1"),
    ("ref_t", .vS "300 300"),
    ("pcoupl", .vS "Parrinello-Rahman"),
    ("pcoupltype", .vS "isotropic"),
    ("tau_p", .vF "2.0"),
    ("ref_p", .vF "1.0"),
    ("compressibility", .vF "4.5e-05"),
    ("pbc", .vS "xyz"),
    ("gen_vel", .vS "no")
  ])]

/-- The `{key:<20}` padding of gmx_copilot.py:672. -/
def padKey (k : String) : String :=
  k ++ String.mk (List.replicate (20 - k.length) ' ')

/-- One written MDP line: `f"{key:<20} = {value}\n"`. -/
def mdpLine (k : String) (v : MdpVal) : String :=
  padKey k ++ " = " ++ renderVal v ++ "\n"

/-- The merged parameter dictionary for a known type: defaults overridden
key-for-key by the caller map (gmx_copilot.py:663-667). -/
def mdpMerged (d o : List (String × MdpVal)) : List (String × MdpVal) :=
  pyUpdate d o

/-- The full file content written for a known type (gmx_copilot.py:670-673):
a comment header followed by one line per key in dictionary order. -/
def mdpContent (ty : String) (ps : List (String × MdpVal)) : String :=
  "; " ++ ty ++ ".mdp - Generated by MD LLM Agent\n"
    ++ String.join (ps.map (fun p => mdpLine p.1 p.2))

/-- Result of `create_mdp_file`; `content` is the text actually written to
disk (`none` when nothing was written). -/
structure MdpOut where
  success : Bool
  error : Option String
  file_path : Option String
  content : Option String
deriving Repr, DecidableEq

/-- A local-write oracle: `none` means the `open`/`write` succeeded,
`some e` means it raised an exception rendered as `e`. -/
abbrev WOracle := String → Option String

/-- `create_mdp_file` from `src/gmx_copilot.py:508-697`.  Also
Modelled from the spec: `BaseProtocol.create_mdp_file`
(`gromacs_copilot/protocols/base.py` is not under `src/`; §4.2 of the spec
describes the identical template-merge-write contract, and the protocol
methods call it with the `DEFAULT_MDP_PARAMS` table of config.py). -/
def create_mdp_file (ty : String) (o : List (String × MdpVal)) (w : WOracle) : MdpOut :=
  match lookupA ty DEFAULT_MDP_PARAMS with
  | none =>
    ⟨false, some ("Unknown MDP type: " ++ ty), none, none⟩
  | some d =>
    let ps := mdpMerged d o
    let content := mdpContent ty ps
    let path := ty ++ ".mdp"
    match w path with
    | some e => ⟨false, some ("Failed to write MDP file: " ++ e), none, none⟩
    | none => ⟨true, none, some path, some content⟩

/-! ## Workflow state — `gromacs_copilot/core/enums.py` and
`gromacs_copilot/protocols/protein.py` -/

/-- `SimulationStage` from `gromacs_copilot/core/enums.py:7-18`. -/
inductive SimulationStage where
  | SETUP | PREPARE_PROTEIN | PREPARE_LIGAND | PREPARE_COMPLEX | SOLVATION
  | ENERGY_MINIMIZATION | EQUILIBRATION | PRODUCTION | ANALYSIS | COMPLETED
deriving Repr, DecidableEq

/-- The artifact registry and workflow state owned by a `ProteinProtocol`
instance (protein.py:28-34 plus the base workspace and stage). -/
structure ProteinState where
  workspace : String
  stage : SimulationStage
  protein_file : Option String
  topology_file : Option String
  box_file : Option String
  solvated_file : Option String
  minimized_file : Option String
  equilibrated_file : Option String
  production_file : Option String
deriving Repr, DecidableEq

/-- `ProteinProtocol.__init__` (protein.py:18-36): all artifact entries
start empty.  Modelled from the spec: the initial stage field set by the
missing `BaseProtocol.__init__` is `SETUP`, the first stage of §3. -/
def proteinInit (ws : String) : ProteinState :=
  ⟨ws, .SETUP, none, none, none, none, none, none, none⟩

/-- Python truthiness test `not self.x` on an optional string attribute:
true for `None` and for the empty string. -/
def optFalsy : Option String → Bool
  | none => true
  | some s => s = ""

/-- Python f-string interpolation of an optional attribute (`None` renders
as the four-character string). -/
def optStr : Option String → String
  | none => "None"
  | some s => s

/-- `FORCE_FIELDS` from `gromacs_copilot/config.py:12-17`. -/
def FORCE_FIELDS : List (String × String) :=
  [("AMBER99SB-ILDN", "amber99sb-ildn"),
   ("CHARMM36", "charmm36-feb2021"),
   ("GROMOS96 53a6", "gromos53a6"),
   ("OPLS-AA/L", "oplsaa")]

/-- Structured result of one protocol step method: the `success` flag and
the `error` message of the returned dictionary. -/
structure StepResult where
  success : Bool
  error : Option String
deriving Repr, DecidableEq

/-- Host-environment oracle for shell commands. -/
abbrev Env := String → HostOutcome

/-- A step method's observable outcome: result, post-state, and the list
of shell commands issued, in order. -/
abbrev StepOut := StepResult × ProteinState × List String

/-- The single-quote character, used in embedded command strings. -/
def sq : String := String.mk [Char.ofNat 39]


/-- The command strings built by the protein step methods (protein.py
lines 176, 213, 244, 283, 294, 331, 378, 418, 472). -/
def pdb2gmxCmd (s : ProteinState) (ffName water_model : String) : String :=
  "gmx pdb2gmx -f " ++ optStr s.protein_file
    ++ " -o protein.gro -p topology.top -i posre.itp -ff " ++ ffName
    ++ " -water " ++ water_model

def editconfCmd (s : ProteinState) (distance box_type : String) : String :=
  "gmx editconf -f " ++ optStr s.box_file ++ " -o box.gro -c -d "
    ++ distance ++ " -bt " ++ box_type

def solvateCmd (s : ProteinState) : String :=
  "gmx solvate -cp " ++ optStr s.box_file ++ " -cs spc216.gro -o solvated.gro -p "
    ++ optStr s.topology_file

def gromppIonsCmd (s : ProteinState) : String :=
  "gmx grompp -f ions.mdp -c " ++ optStr s.solvated_file
    ++ " -p " ++ optStr s.topology_file ++ " -o ions.tpr"

def genionCmd (s : ProteinState) (concentration : String) (neutral : Bool) : String :=
  "echo " ++ sq ++ "SOL" ++ sq ++ " | gmx genion -s ions.tpr -o solvated_ions.gro -p "
    ++ optStr s.topology_file ++ " -pname NA -nname CL "
    ++ (if neutral then "-neutral" else "") ++ " -conc " ++ concentration

def gromppEmCmd (s : ProteinState) : String :=
  "gmx grompp -f em.mdp -c " ++ optStr s.solvated_file
    ++ " -p " ++ optStr s.topology_file ++ " -o em.tpr"

def gromppNvtCmd (s : ProteinState) : String :=
  "gmx grompp -f nvt.mdp -c " ++ optStr s.minimized_file
    ++ " -r " ++ optStr s.minimized_file ++ " -p " ++ optStr s.topology_file
    ++ " -o nvt.tpr"

def gromppNptCmd (s : ProteinState) : String :=
  "gmx grompp -f npt.mdp -c nvt.gro -r nvt.gro -t nvt.cpt -p "
    ++ optStr s.topology_file ++ " -o npt.tpr"

def gromppMdCmd (s : ProteinState) : String :=
  "gmx grompp -f md.mdp -c " ++ optStr s.equilibrated_file
    ++ " -t npt.cpt -p " ++ optStr s.topology_file ++ " -o md.tpr"

/-- `ProteinProtocol.generate_topology` (protein.py:149-194). -/
def generate_topology (s : ProteinState) (env : Env)
    (force_field water_model : String) : StepOut :=
  if optFalsy s.protein_file then
    (⟨false, some "No protein file has been set"⟩, s, [])
  else
    match lookupA force_field FORCE_FIELDS with
    | none =>
      (⟨false, some ("Unknown force field: " ++ force_field)⟩, s, [])
    | some ffName =>
      let cmd := pdb2gmxCmd s ffName water_model
      let r := shellRes env cmd
      if r.success then
        (⟨true, none⟩,
         { s with topology_file := some "topology.top", box_file := some "protein.gro" },
         [cmd])
      else
        (⟨false, some ("Failed to generate topology: " ++ r.stderr)⟩, s, [cmd])

/-- `ProteinProtocol.define_simulation_box` (protein.py:196-229).  The
numeric `distance` argument is carried as its f-string rendering. -/
def define_simulation_box (s : ProteinState) (env : Env)
    (distance box_type : String) : StepOut :=
  if optFalsy s.box_file then
    (⟨false, some "No protein structure file has been processed"⟩, s, [])
  else
    let cmd := editconfCmd s distance box_type
    let r := shellRes env cmd
    if r.success then
      (⟨true, none⟩, { s with box_file := some "box.gro" }, [cmd])
    else
      (⟨false, some ("Failed to define simulation box: " ++ r.stderr)⟩, s, [cmd])

/-- `ProteinProtocol.solvate_system` (protein.py:231-258). -/
def solvate_system (s : ProteinState) (env : Env) : StepOut :=
  if optFalsy s.box_file || optFalsy s.topology_file then
    (⟨false, some "Box file or topology file not defined"⟩, s, [])
  else
    let cmd := solvateCmd s
    let r := shellRes env cmd
    if r.success then
      (⟨true, none⟩, { s with solvated_file := some "solvated.gro" }, [cmd])
    else
      (⟨false, some ("Failed to solvate the protein: " ++ r.stderr)⟩, s, [cmd])

/-- `ProteinProtocol.add_ions` (protein.py:260-310).  `concentration` is
carried as its f-string rendering. -/
def add_ions (s : ProteinState) (env : Env) (w : WOracle)
    (concentration : String) (neutral : Bool) : StepOut :=
  if optFalsy s.solvated_file || optFalsy s.topology_file then
    (⟨false, some "Solvated file or topology file not defined"⟩, s, [])
  else
    let mdp := create_mdp_file "ions" [] w
    if ¬ mdp.success then
      (⟨false, mdp.error⟩, s, [])
    else
      let cmd₁ := gromppIonsCmd s
      let r₁ := shellRes env cmd₁
      if ¬ r₁.success then
        (⟨false, some ("Failed to prepare for adding ions: " ++ r₁.stderr)⟩, s, [cmd₁])
      else
        let cmd₂ := genionCmd s concentration neutral
        let r₂ := shellRes env cmd₂
        if ¬ r₂.success then
          (⟨false, some ("Failed to add ions: " ++ r₂.stderr)⟩, s, [cmd₁, cmd₂])
        else
          (⟨true, none⟩, { s with solvated_file := some "solvated_ions.gro" }, [cmd₁, cmd₂])

/-- `ProteinProtocol.run_energy_minimization` (protein.py:312-357). -/
def run_energy_minimization (s : ProteinState) (env : Env) (w : WOracle) : StepOut :=
  if optFalsy s.solvated_file || optFalsy s.topology_file then
    (⟨false, some "Solvated file or topology file not defined"⟩, s, [])
  else
    let mdp := create_mdp_file "em" [] w
    if ¬ mdp.success then
      (⟨false, mdp.error⟩, s, [])
    else
      let cmd₁ := gromppEmCmd s
      let r₁ := shellRes env cmd₁
      if ¬ r₁.success then
        (⟨false, some ("Failed to prepare energy minimization: " ++ r₁.stderr)⟩, s, [cmd₁])
      else
        let cmd₂ := "gmx mdrun -v -deffnm em"
        let r₂ := shellRes env cmd₂
        if ¬ r₂.success then
          (⟨false, some ("Energy minimization failed: " ++ r₂.stderr)⟩, s, [cmd₁, cmd₂])
        else
          (⟨true, none⟩, { s with minimized_file := some "em.gro" }, [cmd₁, cmd₂])

/-- `ProteinProtocol.run_nvt_equilibration` (protein.py:359-403).  Note the
method mutates no registry entry even on success. -/
def run_nvt_equilibration (s : ProteinState) (env : Env) (w : WOracle) : StepOut :=
  if optFalsy s.minimized_file || optFalsy s.topology_file then
    (⟨false, some "Minimized file or topology file not defined"⟩, s, [])
  else
    let mdp := create_mdp_file "nvt" [] w
    if ¬ mdp.success then
      (⟨false, mdp.error⟩, s, [])
    else
      let cmd₁ := gromppNvtCmd s
      let r₁ := shellRes env cmd₁
      if ¬ r₁.success then
        (⟨false, some ("Failed to prepare NVT equilibration: " ++ r₁.stderr)⟩, s, [cmd₁])
      else
        let cmd₂ := "gmx mdrun -v -deffnm nvt"
        let r₂ := shellRes env cmd₂
        if ¬ r₂.success then
          (⟨false, some ("NVT equilibration failed: " ++ r₂.stderr)⟩, s, [cmd₁, cmd₂])
        else
          (⟨true, none⟩, s, [cmd₁, cmd₂])

/-- `ProteinProtocol.run_npt_equilibration` (protein.py:405-445).  The
source performs no precondition check before building its invocations. -/
def run_npt_equilibration (s : ProteinState) (env : Env) (w : WOracle) : StepOut :=
  let mdp := create_mdp_file "npt" [] w
  if ¬ mdp.success then
    (⟨false, mdp.error⟩, s, [])
  else
    let cmd₁ := gromppNptCmd s
    let r₁ := shellRes env cmd₁
    if ¬ r₁.success then
      (⟨false, some ("Failed to prepare NPT equilibration: " ++ r₁.stderr)⟩, s, [cmd₁])
    else
      let cmd₂ := "gmx mdrun -v -deffnm npt"
      let r₂ := shellRes env cmd₂
      if ¬ r₂.success then
        (⟨false, some ("NPT equilibration failed: " ++ r₂.stderr)⟩, s, [cmd₁, cmd₂])
      else
        (⟨true, none⟩, { s with equilibrated_file := some "npt.gro" }, [cmd₁, cmd₂])

/-- The floor of a rational, computed as Euclidean division of numerator
by (positive) denominator. -/
def ratFloor (q : ℚ) : ℤ := q.num / q.den

/-- Python `int(q)` on an exact rational: truncation toward zero
(`Int.tdiv` is truncated division; the denominator is positive). -/
def pyIntTrunc (q : ℚ) : ℤ := q.num.tdiv q.den

/-- Python `round(q)` on an exact rational: nearest integer, ties to the
even neighbour. -/
def pyRound (q : ℚ) : ℤ :=
  let f := ratFloor q
  let r := q - f
  if r < 1 / 2 then f
  else if 1 / 2 < r then f + 1
  else if f % 2 = 0 then f else f + 1

/-- The step-count conversion of `run_production_md`
(protein.py:464 and protein_ligand.py:776):
`nsteps = int(length_ns * 1000000 / 2)`. -/
def nstepsOfLength (length_ns : ℚ) : ℤ :=
  pyIntTrunc (length_ns * 1000000 / 2)

/-- `ProteinProtocol.run_production_md` (protein.py:447-500). -/
def run_production_md (s : ProteinState) (env : Env) (w : WOracle)
    (length_ns : ℚ) : StepOut :=
  if optFalsy s.equilibrated_file || optFalsy s.topology_file then
    (⟨false, some "Equilibrated file or topology file not defined"⟩, s, [])
  else
    let nsteps := nstepsOfLength length_ns
    let mdp := create_mdp_file "md" [("nsteps", .vI nsteps)] w
    if ¬ mdp.success then
      (⟨false, mdp.error⟩, s, [])
    else
      let cmd₁ := gromppMdCmd s
      let r₁ := shellRes env cmd₁
      if ¬ r₁.success then
        (⟨false, some ("Failed to prepare production MD: " ++ r₁.stderr)⟩, s, [cmd₁])
      else
        let cmd₂ := "gmx mdrun -v -deffnm md"
        let r₂ := shellRes env cmd₂
        if ¬ r₂.success then
          (⟨false, some ("Production MD failed: " ++ r₂.stderr)⟩, s, [cmd₁, cmd₂])
        else
          (⟨true, none⟩, { s with production_file := some "md.gro" }, [cmd₁, cmd₂])

/-- Split a character list on a separator character (Python `str.split(c)`). -/
def splitOnChar (c : Char) : List Char → List (List Char)
  | [] => [[]]
  | x :: xs =>
    if x = c then [] :: splitOnChar c xs
    else
      match splitOnChar c xs with
      | [] => [[x]]
      | h :: t => (x :: h) :: t

/-- Python `os.path.basename` for slash-separated paths. -/
def pyBasename (p : String) : String :=
  String.mk ((splitOnChar (Char.ofNat 47) p.data).getLastD [])

/-- `ProteinProtocol.set_protein_file` (protein.py:112-147).  `fileExists`
models `os.path.exists`; input paths are treated as already absolute and
normalized, so `os.path.abspath` is the identity on them.  Note the source
records `self.protein_file = basename` (line 130) before running the copy
command. -/
def set_protein_file (s : ProteinState) (env : Env)
    (fileExists : String → Bool) (file_path : String) : StepOut :=
  if ¬ fileExists file_path then
    (⟨false, some ("Protein file not found: " ++ file_path)⟩, s, [])
  else
    let basename := pyBasename file_path
    let s₁ := { s with protein_file := some basename }
    let mk := "mkdir -p topologies"
    if file_path ≠ s.workspace ++ "/" ++ basename then
      let cp := "cp " ++ file_path ++ " " ++ s.workspace ++ "/"
      let r := shellRes env cp
      if ¬ r.success then
        (⟨false, some ("Failed to copy protein file to workspace: " ++ r.stderr)⟩, s₁, [cp])
      else
        (⟨true, none⟩, s₁, [cp, mk])
    else
      (⟨true, none⟩, s₁, [mk])

/-! ## Protein-ligand protocol — `gromacs_copilot/protocols/protein_ligand.py` -/

/-- `STANDARD_RESIDUES` from `gromacs_copilot/config.py:167-171`. -/
def STANDARD_RESIDUES : List String :=
  ["ALA", "ARG", "ASN", "ASP", "CYS", "GLN", "GLU", "GLY", "HIS", "ILE",
   "LEU", "LYS", "MET", "PHE", "PRO", "SER", "THR", "TRP", "TYR", "VAL",
   "HOH", "WAT", "TIP", "SOL", "NA", "CL", "K", "CA", "MG", "ZN"]

/-- State of a `ProteinLigandProtocol` instance: the inherited protein
registry plus the ligand-specific attributes (protein_ligand.py:28-33). -/
structure PLState where
  base : ProteinState
  ligand_file : Option String
  ligand_name : Option String
  complex_file : Option String
  has_ligand : Bool
  index_file : Option String
  gmx_bin : String
deriving Repr, DecidableEq

/-- `ProteinLigandProtocol.__init__` (protein_ligand.py:18-35). -/
def plInit (ws : String) : PLState :=
  ⟨proteinInit ws, none, none, none, false, none, "gmx"⟩

/-- Python `str.split()` (whitespace split, empty fields discarded) on a
character list. -/
def splitWSChars : List Char → List Char → List (List Char)
  | [], acc => if acc.isEmpty then [] else [acc.reverse]
  | c :: cs, acc =>
    if isSpc c then
      if acc.isEmpty then splitWSChars cs [] else acc.reverse :: splitWSChars cs []
    else splitWSChars cs (c :: acc)

/-- Python `str.split()` on a `String`. -/
def pySplitWS (s : String) : List String :=
  (splitWSChars s.data []).map String.mk

/-- Result of `check_for_ligands`. -/
structure LigandsResult where
  success : Bool
  error : Option String
  ligands : List String
deriving Repr, DecidableEq

/-- The residue-extraction command built at protein_ligand.py:102. -/
def ligandScanCmd (pdb_file : String) : String :=
  "grep " ++ sq ++ "^ATOM\\|^HETATM" ++ sq ++ " " ++ pdb_file
    ++ " | awk " ++ sq ++ "\x7bprint $4\x7d" ++ sq ++ " | sort | uniq"

/-- `ProteinLigandProtocol.check_for_ligands` (protein_ligand.py:90-124):
run the residue scan, split its stdout on whitespace, and keep the names
absent from `STANDARD_RESIDUES`. -/
def check_for_ligands (env : Env) (pdb_file : String) : LigandsResult × List String :=
  let cmd := ligandScanCmd pdb_file
  let r := shellRes env cmd
  if ¬ r.success then
    (⟨false, some ("Failed to analyze PDB file: " ++ r.stderr), []⟩, [cmd])
  else
    let residues := pySplitWS (pyStrip r.stdout)
    (⟨true, none, residues.filter (fun res => ¬ res ∈ STANDARD_RESIDUES)⟩, [cmd])

/-- Byte-order comparison of character lists (the `LC_ALL=C` collation of
the `sort` stage). -/
def charListLe : List Char → List Char → Bool
  | [], _ => true
  | _ :: _, [] => false
  | a :: as, b :: bs =>
    if a.toNat < b.toNat then true
    else if b.toNat < a.toNat then false
    else charListLe as bs

def insertSorted (x : String) : List String → List String
  | [] => [x]
  | y :: t => if charListLe x.data y.data then x :: y :: t else y :: insertSorted x t

/-- Insertion sort on strings (the `sort` stage of the pipeline). -/
def sortStrings (l : List String) : List String :=
  l.foldr insertSorted []

/-- Adjacent deduplication (the `uniq` stage of the pipeline). -/
def uniqAdj : List String → List String
  | [] => []
  | [a] => [a]
  | a :: b :: t => if a = b then uniqAdj (b :: t) else a :: uniqAdj (b :: t)

/-- Model of the external Unix pipeline that `check_for_ligands` invokes
(`grep` for lines beginning with `ATOM`/`HETATM`, `awk` field 4, `sort`,
`uniq`): the sorted deduplicated fourth whitespace fields of the matching
lines.  Lines with fewer than four fields contribute the empty string in
`awk`; those are discarded here because the Python-side whitespace split
drops empty fields anyway. -/
def pdbResidueNames (lines : List String) : List String :=
  uniqAdj (sortStrings ((lines.filter
      (fun l => listStartsWith l.data "ATOM".data || listStartsWith l.data "HETATM".data)).filterMap
      (fun l => (pySplitWS l)[3]?)))

/-- Render a line list as the stdout of the pipeline. -/
def renderLines (ls : List String) : String :=
  String.intercalate "\n" ls ++ "\n"

/-- Outcome of a protein-ligand step: result, post-state, issued commands. -/
abbrev PLStepOut := StepResult × PLState × List String

/-- `ProteinLigandProtocol.set_ligand` (protein_ligand.py:126-175),
inlining `extract_ligand` (protein_ligand.py:177-231).  `w` models the
local write of the temporary `extract_ligand.py` script; the source
records `self.ligand_name = ligand_name` (line 142) before any command
runs.  The `os.remove` of the temporary script is assumed to succeed. -/
def set_ligand (s : PLState) (env : Env) (w : WOracle) (ligand_name : String) : PLStepOut :=
  if optFalsy s.base.protein_file then
    (⟨false, some "No protein file has been set"⟩, s, [])
  else
    let s₁ := { s with ligand_name := some ligand_name }
    let mkdirCmd := "mkdir -p param/receptor param/ligand"
    let r₁ := shellRes env mkdirCmd
    if ¬ r₁.success then
      (⟨false, some ("Failed to create directories: " ++ r₁.stderr)⟩, s₁, [mkdirCmd])
    else
      let extractCmd := "grep " ++ sq ++ "^ATOM" ++ sq ++ " " ++ optStr s.base.protein_file
        ++ " > param/receptor/receptor.pdb"
      let r₂ := shellRes env extractCmd
      if ¬ r₂.success then
        (⟨false, some ("Failed to extract protein atoms: " ++ r₂.stderr)⟩, s₁,
         [mkdirCmd, extractCmd])
      else
        match w "extract_ligand.py" with
        | some e =>
          (⟨false, some ("Error extracting ligand: " ++ e)⟩, s₁, [mkdirCmd, extractCmd])
        | none =>
          let pyCmd := "python extract_ligand.py"
          let r₃ := shellRes env pyCmd
          if ¬ r₃.success then
            (⟨false, some ("Failed to extract ligand: " ++ r₃.stderr)⟩, s₁,
             [mkdirCmd, extractCmd, pyCmd])
          else
            (⟨true, none⟩,
             { s₁ with ligand_file := some "param/ligand/ligand.pdb", has_ligand := true },
             [mkdirCmd, extractCmd, pyCmd])

/-! ## Controller protocol switch — `gromacs_copilot/core/md_agent.py:596-608` -/

/-- The protocol switch performed by `MDLLMAgent.execute_tool_call` on the
first `set_ligand` call: construct a fresh `ProteinLigandProtocol` on the
agent workspace, then copy exactly `protein_file` and `stage` from the old
protein-only protocol. -/
def switchToProteinLigand (old : ProteinState) (agentWorkspace : String) : PLState :=
  let fresh := plInit agentWorkspace
  { fresh with base :=
      { fresh.base with protein_file := old.protein_file, stage := old.stage } }

/-! ## MM-PBSA protocol — `gromacs_copilot/protocols/mmpbsa.py` -/

/-- State of an `MMPBSAProtocol` instance (mmpbsa.py:26-32). -/
structure MMPBSAState where
  workspace : String
  trajectory_file : Option String
  topology_file : Option String
  index_file : Option String
  protein_group : Option Int
  ligand_group : Option Int
  complex_group : Option Int
deriving Repr, DecidableEq

/-- `self.mmpbsa_dir = os.path.join(workspace, "mmpbsa")` (mmpbsa.py:32). -/
def mmpbsaDir (s : MMPBSAState) : String := s.workspace ++ "/mmpbsa"

/-- `MMPBSAProtocol.__init__` (mmpbsa.py:16-38): every group field starts
as `None`. -/
def mmpbsaInit (ws : String) : MMPBSAState :=
  ⟨ws, none, none, none, none, none, none⟩

/-- The colon character. -/
def colon : Char := ':'

/-- Python `int(str)`: optional surrounding whitespace, optional sign,
one or more digits; anything else raises (returns `none`). -/
def pyParseInt (l : List Char) : Option Int :=
  let t := stripChars l
  let (sgn, digs) : Int × List Char :=
    match t with
    | c :: rest => if c = '-' then (-1, rest) else if c = '+' then (1, rest) else (1, t)
    | [] => (1, [])
  if digs.isEmpty || ¬ digs.all Char.isDigit then none
  else some (sgn * (digs.foldl (fun a c => a * 10 + (c.toNat - 48)) (0 : Nat) : Nat))

/-- Result of `create_mmpbsa_index_file`: on success the parsed
group-name-to-number mapping is returned to the caller (mmpbsa.py:187-188)
without being stored on the instance. -/
structure IndexResult where
  success : Bool
  error : Option String
  groups : List (String × Int)
deriving Repr, DecidableEq

/-- Parse one line of the group-listing pipeline output
(mmpbsa.py:156-162): a line containing a colon contributes
`name ↦ int(first field) - 1`; a non-integer first field raises. -/
def parseGroupLine (acc : List (String × Int)) (lc : List Char) :
    Except String (List (String × Int)) :=
  if lc.contains colon then
    let parts := splitOnChar colon lc
    match pyParseInt (parts.headD []) with
    | none => .error "invalid literal for int()"
    | some n => .ok (updateOne acc (String.mk (stripChars (parts.getD 1 []))) (n - 1))
  else .ok acc

/-- `MMPBSAProtocol.create_mmpbsa_index_file` (mmpbsa.py:113-194).  The
assignments to `self.index_file` / `self.protein_group` /
`self.ligand_group` / `self.complex_group` are commented out in the
source (mmpbsa.py:183-186), so the state is returned unchanged. -/
def create_mmpbsa_index_file (s : MMPBSAState) (env : Env)
    (fileExists : String → Bool) (protein_selection ligand_selection : String) :
    IndexResult × MMPBSAState × List String :=
  if ¬ fileExists (s.workspace ++ "/md.tpr") then
    (⟨false, some "Topology file not found", []⟩, s, [])
  else
    let cmd₁ := "echo -e \"name " ++ protein_selection ++ "\\nname " ++ ligand_selection
      ++ "\\n\\nq\" | gmx make_ndx -f md.tpr -o mmpbsa/mmpbsa.ndx"
    let r₁ := shellRes env cmd₁
    if ¬ r₁.success then
      (⟨false, some ("Failed to create index file: " ++ r₁.stderr), []⟩, s, [cmd₁])
    else
      let cmd₂ := "grep " ++ sq ++ "\\[" ++ sq ++ " mmpbsa/mmpbsa.ndx | grep -n " ++ sq
        ++ "\\[" ++ sq ++ " | awk " ++ sq ++ "\x7bprint $1, $2, $3\x7d" ++ sq
      let r₂ := shellRes env cmd₂
      if ¬ r₂.success then
        (⟨false, some ("Failed to extract group numbers: " ++ r₂.stderr), []⟩, s, [cmd₁, cmd₂])
      else
        let lines := splitOnChar '\n' (stripChars r₂.stdout.data)
        match lines.foldlM parseGroupLine [] with
        | .error e =>
          (⟨false, some ("Error parsing group numbers: " ++ e), []⟩, s, [cmd₁, cmd₂])
        | .ok groups =>
          (⟨true, none, groups⟩, s, [cmd₁, cmd₂])

/-- Result of `run_mmpbsa_calculation`. -/
structure CalcResult where
  success : Bool
  error : Option String
  results_file : Option String
deriving Repr, DecidableEq

/-- `MMPBSAProtocol.run_mmpbsa_calculation` (mmpbsa.py:262-320).  All file
and group inputs are explicit arguments; the instance contributes only its
workspace (and the derived mmpbsa directory).  Argument paths are treated
as relative, so `os.path.join` concatenates. -/
def run_mmpbsa_calculation (s : MMPBSAState) (env : Env) (fileExists : String → Bool)
    (ligand_mol_file index_file topology_file protein_group ligand_group
     trajectory_file : String) (overwrite : Bool) :
    CalcResult × MMPBSAState × List String :=
  if index_file = "" || ¬ fileExists (s.workspace ++ "/" ++ index_file) then
    (⟨false, some "Index file not found", none⟩, s, [])
  else
    let input_file := mmpbsaDir s ++ "/mmpbsa.in"
    if ¬ fileExists input_file then
      (⟨false, some "MM-PBSA input file not found. Run create_mmpbsa_input() first.", none⟩,
       s, [])
    else
      let overwriteFlag := if overwrite then "-O" else ""
      let cmd := "cd " ++ s.workspace ++ " && gmx_MMPBSA " ++ overwriteFlag
        ++ " -i " ++ input_file ++ " -cs " ++ topology_file ++ " -ci " ++ index_file
        ++ " -cg " ++ protein_group ++ " " ++ ligand_group ++ " -ct " ++ trajectory_file
        ++ " -lm " ++ ligand_mol_file ++ " -o " ++ mmpbsaDir s
        ++ "/FINAL_RESULTS_MMPBSA.dat -nogui"
      let r := shellRes env cmd
      if ¬ r.success then
        (⟨false, some ("MM-PBSA calculation failed: " ++ r.stderr), none⟩, s, [cmd])
      else
        let final := mmpbsaDir s ++ "/FINAL_RESULTS_MMPBSA.dat"
        if ¬ fileExists final then
          (⟨false, some "MM-PBSA calculation did not produce expected output file", none⟩,
           s, [cmd])
        else
          (⟨true, none, some final⟩, s, [cmd])

/-! ## MM-PBSA result parsing — `mmpbsa.py:325-400` -/

/-- One parsed component row: mean, standard deviation, standard error. -/
structure MmEntry where
  mean : ℚ
  std : ℚ
  std_err : ℚ
deriving Repr, DecidableEq

/-- The parsed results returned on success (mmpbsa.py:384-394). -/
structure MmResults where
  binding_energy : ℚ
  van_der_waals : ℚ
  electrostatic : ℚ
  polar_solvation : ℚ
  non_polar_solvation : ℚ
  detailed_results : List (String × MmEntry)
deriving Repr, DecidableEq

/-- The natural number denoted by a list of decimal digits. -/
def natOfDigits (l : List Char) : Nat :=
  l.foldl (fun a c => a * 10 + (c.toNat - 48)) 0

/-- Python `float(str)` restricted to the finite decimal grammar
`[+-]? digits [. digits]? ([eE] [+-]? digits)?` (also accepting `.5` and
`5.`), over exact rationals built with `mkRat`; other inputs raise
(return `none`).  (The special spellings `inf`/`nan` are not modelled.) -/
def pyFloat (l : List Char) : Option ℚ :=
  let (sgn, l₁) : ℤ × List Char :=
    match l with
    | c :: t => if c = '-' then (-1, t) else if c = '+' then (1, t) else (1, l)
    | [] => (1, [])
  let intDigits := l₁.takeWhile Char.isDigit
  let rest₁ := l₁.drop intDigits.length
  let (fracDigits, rest₂) : List Char × List Char :=
    match rest₁ with
    | c :: t =>
      if c = '.' then (t.takeWhile Char.isDigit, t.drop (t.takeWhile Char.isDigit).length)
      else ([], rest₁)
    | [] => ([], [])
  if intDigits.isEmpty && fracDigits.isEmpty then none
  else
    let num : ℤ := sgn * (natOfDigits intDigits * 10 ^ fracDigits.length + natOfDigits fracDigits)
    let den : ℕ := 10 ^ fracDigits.length
    match rest₂ with
    | [] => some (mkRat num den)
    | c :: t =>
      if c = 'e' || c = 'E' then
        let (eneg, t₁) : Bool × List Char :=
          match t with
          | d :: u => if d = '-' then (true, u) else if d = '+' then (false, u) else (false, t)
          | [] => (false, [])
        let eDigits := t₁.takeWhile Char.isDigit
        if eDigits.isEmpty || ¬ (t₁.drop eDigits.length).isEmpty then none
        else
          let e := natOfDigits eDigits
          some (if eneg then mkRat num (den * 10 ^ e) else mkRat (num * 10 ^ e) den)
      else none

/-- Parser state of the loop at mmpbsa.py:345-375. -/
structure PPState where
  dataBlock : Bool
  results : List (String × MmEntry)
deriving Repr, DecidableEq

/-- One iteration of the parsing loop (mmpbsa.py:348-375): strip the line;
skip blanks and header rules; a line starting with `DELTA TOTAL` opens the
data block and is itself skipped; inside the data block a line containing
a colon contributes `key ↦ (mean, std, std_err)` parsed from the first
three whitespace fields after the first colon, raising on a malformed
float. -/
def parseLine (st : PPState) (line : String) : Except String PPState :=
  let l := stripChars line.data
  if l.isEmpty then .ok st
  else if listStartsWith l "***".data then .ok st
  else if listStartsWith l "===".data then .ok st
  else if listStartsWith l "DELTA TOTAL".data then .ok { st with dataBlock := true }
  else if st.dataBlock && l.contains colon then
    let parts := splitOnChar colon l
    let key := String.mk (stripChars (parts.headD []))
    let valParts := splitWSChars (stripChars (parts.getD 1 [])) []
    if 3 ≤ valParts.length then
      match pyFloat (valParts.getD 0 []), pyFloat (valParts.getD 1 []),
            pyFloat (valParts.getD 2 []) with
      | some m, some sd, some se =>
        .ok { st with results := updateOne st.results key ⟨m, sd, se⟩ }
      | _, _, _ => .error "could not convert string to float"
    else .ok st
  else .ok st

/-- The key/value table accumulated by `parse_mmpbsa_results` over the
lines of the results file. -/
def parse_mmpbsa_lines (lines : List String) : Except String (List (String × MmEntry)) :=
  (lines.foldlM parseLine ⟨false, []⟩).map PPState.results

/-- `results.get(k, {}).get("mean", 0)` (mmpbsa.py:378-382). -/
def getMean (res : List (String × MmEntry)) (k : String) : ℚ :=
  ((lookupA k res).map MmEntry.mean).getD 0

/-- `MMPBSAProtocol.parse_mmpbsa_results` (mmpbsa.py:325-400) on the
content of an existing results file, given as its list of lines;
`Except.error` is the caught-exception branch returning success=False. -/
def parse_mmpbsa_results (lines : List String) : Except String MmResults :=
  (parse_mmpbsa_lines lines).map fun res =>
    ⟨getMean res "DELTA TOTAL", getMean res "VDWAALS", getMean res "EEL",
     getMean res "EGB/EPB", getMean res "ESURF", res⟩

/-! ## Test fixtures used by the claim theorems and witnesses -/

/-- A 501-character stdout, one more than the trim threshold. -/
def longOut : String := String.mk (List.replicate 501 (Char.ofNat 97))

/-- A host on which every command exits 0 with `longOut` on stdout. -/
def envLongOut : Env := fun _ => .runs 0 longOut ""

/-- A host that cannot start any command. -/
def envStartFail : Env := fun _ => .startFail "boom"

def c5Overrides : List (String × MdpVal) :=
  [("nsteps", .vI 750000), ("zzz-custom", .vS "verbatim")]

def mdDefaultsTable : List (String × MdpVal) :=
  (lookupA "md" DEFAULT_MDP_PARAMS).getD []

instance : DecidableEq (Except String MmResults) := fun a b =>
  match a, b with
  | .ok x, .ok y => if h : x = y then isTrue (by rw [h]) else isFalse (by simp [h])
  | .error x, .error y => if h : x = y then isTrue (by rw [h]) else isFalse (by simp [h])
  | .ok _, .error _ => isFalse (by simp)
  | .error _, .ok _ => isFalse (by simp)

def mmLines : List String :=
  ["Sample run", "***", "=====", "DELTA TOTAL : -30.5 2.0 0.3",
   "VDWAALS : -45.2 3.1 0.4", "EEL : -12.5 2.2 0.3"]

def c7Expected : MmResults :=
  ⟨0, mkRat (-226) 5, mkRat (-25) 2, 0, 0,
   [("VDWAALS", ⟨mkRat (-226) 5, mkRat 31 10, mkRat 2 5⟩),
    ("EEL", ⟨mkRat (-25) 2, mkRat 11 5, mkRat 3 10⟩)]⟩

def pdbLines : List String :=
  ["ATOM      1  N   ALA A   1", "ATOM      2  CA  GLY A   2",
   "HETATM    3  O   HOH A   3", "HETATM    4  C1  XYZ A   4"]

def pdbEnv : Env := fun c =>
  if c = ligandScanCmd "protein.pdb" then .runs 0 (renderLines (pdbResidueNames pdbLines)) ""
  else .startFail "unexpected"

def envAllOk : Env := fun _ => .runs 0 "" ""

def wAllOk : WOracle := fun _ => none

def mmAltState : MMPBSAState :=
  ⟨"/ws", some "md.xtc", some "md.tpr", some "x.ndx", some 1, some 13, some 20⟩

def plReady : PLState :=
  { plInit "/ws" with base := { proteinInit "/ws" with protein_file := some "protein.pdb" } }

def envMkdirFails : Env := fun c =>
  if c = "mkdir -p param/receptor param/ligand" then .runs 1 "" "mkdir exploded"
  else .runs 0 "" ""

def sReady : ProteinState :=
  ⟨"/ws", .SOLVATION, some "protein.pdb", some "topology.top", some "box.gro",
   some "solvated.gro", some "em.gro", some "npt.gro", none⟩

def envToolFails : Env := fun _ => .runs 1 "" "tool died"

/-! ## Theorems -/

/-! ### Claim C2 — production step count -/

lemma ratFloor_eq_floor (q : ℚ) : ratFloor q = ⌊q⌋ := Rat.floor_def.symm

lemma pyIntTrunc_eq_floor (q : ℚ) (hq : 0 ≤ q) : pyIntTrunc q = ⌊q⌋ := by
  rw [pyIntTrunc, Int.tdiv_eq_ediv (Rat.num_nonneg.mpr hq) (Int.natCast_nonneg _), Rat.floor_def]

/-- Claim C2 is false as stated: the code computes
`int(length_ns * 1000000 / 2)` (truncation), not `round(...)`.  At
`length_ns = 2 ^ (-19) = 1/524288` (an exactly representable binary float,
so IEEE arithmetic agrees with the rational model) the product is
`15625/16384 ≈ 0.954`, which truncates to 0 while rounding gives 1. -/
theorem c2_round_counterexample :
    nstepsOfLength (1 / 524288) = 0 ∧
    pyRound ((1 / 524288 : ℚ) * 1000000 / 2) = 1 ∧
    nstepsOfLength (1 / 524288) ≠ pyRound ((1 / 524288 : ℚ) * 1000000 / 2) := by
  have h0 : nstepsOfLength (1 / 524288) = 0 := by
    rw [nstepsOfLength, pyIntTrunc_eq_floor _ (by norm_num)]
    norm_num
  have h1 : pyRound ((1 / 524288 : ℚ) * 1000000 / 2) = 1 := by
    simp only [pyRound, ratFloor_eq_floor]
    norm_num
  refine ⟨h0, h1, ?_⟩
  rw [h0, h1]
  decide

/-- Claim C2 (amended): `run_production_md` converts the requested length
to the step count `int(length_ns * 1000000 / 2)` — truncation toward zero
under the fixed 2-femtosecond timestep, equal to the floor for the
nonnegative lengths that arise; in particular 10.0 ns gives 5,000,000
steps and 1.0 ns gives 500,000 steps. -/
theorem c2_steps_truncation :
    nstepsOfLength 10 = 5000000 ∧ nstepsOfLength 1 = 500000 ∧
    ∀ q : ℚ, 0 ≤ q → nstepsOfLength q = ⌊q * 1000000 / 2⌋ := by
  refine ⟨?_, ?_, ?_⟩
  · rw [nstepsOfLength, pyIntTrunc_eq_floor _ (by norm_num)]
    norm_num
  · rw [nstepsOfLength, pyIntTrunc_eq_floor _ (by norm_num)]
    norm_num
  · intro q hq
    rw [nstepsOfLength, pyIntTrunc_eq_floor]
    positivity

/-- Claim C2 witness: the truncation characterization applied at the
concrete length 5/2 ns. -/
theorem c2_steps_truncation_witness :
    (0 : ℚ) ≤ 5 / 2 ∧ nstepsOfLength (5 / 2) = ⌊((5 / 2 : ℚ) * 1000000 / 2)⌋ :=
  ⟨by norm_num, c2_steps_truncation.2.2 (5 / 2) (by norm_num)⟩

/-! ### Claim C3 — command runner result shape -/

/-- Claim C3 is false as stated: for stdout exceeding the trim threshold
the returned dictionary still carries the full stdout, not the truncated
text with the marker — truncation happens only in the printed message. -/
theorem c3_trim_counterexample :
    trimThreshold < longOut.length ∧
    (shellRes envLongOut "gmx --version").success = true ∧
    (shellRes envLongOut "gmx --version").stdout = longOut ∧
    (shellRes envLongOut "gmx --version").stdout ≠
      strTake trimThreshold longOut ++ trimMarker := by
  refine ⟨by decide, rfl, rfl, by decide⟩

/-- Claim C3 (amended): `run_shell_command` is total and, for a command
the host starts, returns success iff the exit code is 0 with the full
captured stdout/stderr and no `error` key (the trim threshold affects only
the emitted success message, which carries the truncated stdout plus the
marker); only a host-level start failure yields the distinct `error`
field. -/
theorem c3_runner_contract : ∀ (env : Env) (cmd : String),
    (∀ c o e, env cmd = .runs c o e →
      shellRes env cmd = ⟨decide (c = 0), c, o, e, cmd, none⟩ ∧
      (c = 0 → trimThreshold < o.length →
        (MessageType.success, "Command succeeded with output:\n"
          ++ (strTake trimThreshold o ++ trimMarker))
          ∈ (run_shell_command cmd true false env).2)) ∧
    (∀ m, env cmd = .startFail m →
      shellRes env cmd = ⟨false, 1, "", m, cmd, some m⟩) := by
  intro env cmd
  constructor
  · intro c o e h
    constructor
    · simp [shellRes, run_shell_command, h]
    · intro hc hlen
      subst hc
      simp [run_shell_command, h, hlen]
  · intro m h
    simp [shellRes, run_shell_command, h]

/-- Claim C3 witness: the contract applied on a host giving a 501-character
stdout with exit 0, and on a host that cannot start the command. -/
theorem c3_runner_contract_witness :
    shellRes envLongOut "gmx --version"
      = ⟨decide ((0 : Int) = 0), 0, longOut, "", "gmx --version", none⟩ ∧
    (MessageType.success, "Command succeeded with output:\n"
      ++ (strTake trimThreshold longOut ++ trimMarker))
      ∈ (run_shell_command "gmx --version" true false envLongOut).2 ∧
    shellRes envStartFail "ls" = ⟨false, 1, "", "boom", "ls", some "boom"⟩ :=
  ⟨((c3_runner_contract envLongOut "gmx --version").1 0 longOut "" rfl).1,
   ((c3_runner_contract envLongOut "gmx --version").1 0 longOut "" rfl).2 rfl (by decide),
   (c3_runner_contract envStartFail "ls").2 "boom" rfl⟩

/-! ### Claim C6 — protocol switch state copy -/

/-- Claim C6: switching from the protein-only protocol to the
protein-ligand protocol copies exactly the protein structure path and the
current stage; every other field of the new instance is the fresh
constructor value, independent of the old instance. -/
theorem c6_switch_preserves_protein_and_stage :
    ∀ (old : ProteinState) (ws : String),
      (switchToProteinLigand old ws).base.protein_file = old.protein_file ∧
      (switchToProteinLigand old ws).base.stage = old.stage ∧
      (switchToProteinLigand old ws).base.workspace = ws ∧
      (switchToProteinLigand old ws).base.topology_file = none ∧
      (switchToProteinLigand old ws).base.box_file = none ∧
      (switchToProteinLigand old ws).base.solvated_file = none ∧
      (switchToProteinLigand old ws).base.minimized_file = none ∧
      (switchToProteinLigand old ws).base.equilibrated_file = none ∧
      (switchToProteinLigand old ws).base.production_file = none ∧
      (switchToProteinLigand old ws).ligand_file = none ∧
      (switchToProteinLigand old ws).ligand_name = none ∧
      (switchToProteinLigand old ws).complex_file = none ∧
      (switchToProteinLigand old ws).has_ligand = false ∧
      (switchToProteinLigand old ws).index_file = none := by
  intro old ws
  exact ⟨rfl, rfl, rfl, rfl, rfl, rfl, rfl, rfl, rfl, rfl, rfl, rfl, rfl, rfl⟩

/-! ### Claim C5 — parameter-file generation, and claims C7/C8 fixtures -/

variable {α : Type}

lemma lookupA_nil (k : String) : lookupA k ([] : List (String × α)) = none := rfl

lemma lookupA_cons (k k₁ : String) (v : α) (t : List (String × α)) :
    lookupA k ((k₁, v) :: t) = if k₁ = k then some v else lookupA k t := rfl

lemma keysOf_nil : keysOf ([] : List (String × α)) = [] := rfl

lemma keysOf_cons (p : String × α) (t : List (String × α)) :
    keysOf (p :: t) = p.1 :: keysOf t := rfl

lemma pyUpdate_nil (d : List (String × α)) : pyUpdate d [] = d := rfl

lemma pyUpdate_cons (d : List (String × α)) (p : String × α) (t : List (String × α)) :
    pyUpdate d (p :: t) = pyUpdate (updateOne d p.1 p.2) t := rfl

lemma keysOf_map_replace (d : List (String × α)) (k : String) (v : α) :
    keysOf (d.map (fun p => if p.1 = k then (k, v) else p)) = keysOf d := by
  induction d with
  | nil => rfl
  | cons a t ih =>
    obtain ⟨ak, av⟩ := a
    dsimp only [List.map_cons, keysOf_cons]
    by_cases ha : ak = k
    · rw [if_pos ha]
      dsimp only
      rw [ha]
      exact congrArg _ ih
    · rw [if_neg ha]
      dsimp only
      exact congrArg _ ih

lemma any_key_iff (d : List (String × α)) (k : String) :
    d.any (fun p => p.1 = k) = true ↔ k ∈ keysOf d := by
  rw [List.any_eq_true]
  constructor
  · rintro ⟨p, hp, he⟩
    simp only [decide_eq_true_eq] at he
    exact List.mem_map.mpr ⟨p, hp, he⟩
  · intro h
    obtain ⟨p, hp, he⟩ := List.mem_map.mp h
    exact ⟨p, hp, by simp [he]⟩

lemma mem_keys_updateOne (d : List (String × α)) (k : String) (v : α) (x : String) :
    x ∈ keysOf (updateOne d k v) ↔ x ∈ keysOf d ∨ x = k := by
  unfold updateOne
  by_cases h : d.any (fun p => p.1 = k)
  · rw [if_pos h, keysOf_map_replace]
    have hk : k ∈ keysOf d := (any_key_iff d k).mp h
    constructor
    · exact Or.inl
    · rintro (hx | rfl)
      · exact hx
      · exact hk
  · rw [if_neg h]
    unfold keysOf
    rw [List.map_append, List.mem_append]
    simp [keysOf]

lemma lookupA_map_replace_self (d : List (String × α)) (k : String) (v : α)
    (h : k ∈ keysOf d) :
    lookupA k (d.map (fun p => if p.1 = k then (k, v) else p)) = some v := by
  induction d with
  | nil => simp [keysOf] at h
  | cons a t ih =>
    obtain ⟨ak, av⟩ := a
    dsimp only [List.map_cons]
    by_cases ha : ak = k
    · rw [if_pos ha, lookupA_cons, if_pos rfl]
    · rw [if_neg ha, lookupA_cons, if_neg ha]
      refine ih ?_
      rcases List.mem_cons.mp h with he | ht
      · exact absurd he.symm ha
      · exact ht

lemma lookupA_map_replace_ne (d : List (String × α)) (k : String) (v : α) (x : String)
    (hx : x ≠ k) :
    lookupA x (d.map (fun p => if p.1 = k then (k, v) else p)) = lookupA x d := by
  induction d with
  | nil => rfl
  | cons a t ih =>
    obtain ⟨ak, av⟩ := a
    dsimp only [List.map_cons]
    by_cases ha : ak = k
    · rw [if_pos ha, lookupA_cons, lookupA_cons,
        if_neg (fun he => hx he.symm), if_neg (fun he => hx (by rw [← he, ha]))]
      exact ih
    · rw [if_neg ha, lookupA_cons, lookupA_cons]
      by_cases hax : ak = x
      · rw [if_pos hax, if_pos hax]
      · rw [if_neg hax, if_neg hax]
        exact ih

lemma lookupA_append_single_self (d : List (String × α)) (k : String) (v : α)
    (h : ¬ k ∈ keysOf d) : lookupA k (d ++ [(k, v)]) = some v := by
  induction d with
  | nil => rw [List.nil_append, lookupA_cons, if_pos rfl]
  | cons a t ih =>
    obtain ⟨ak, av⟩ := a
    rw [List.cons_append, lookupA_cons, if_neg (fun he => h (by rw [keysOf_cons]; exact List.mem_cons.mpr (Or.inl he.symm)))]
    exact ih (fun ht => h (by rw [keysOf_cons]; exact List.mem_cons.mpr (Or.inr ht)))

lemma lookupA_append_single_ne (d : List (String × α)) (k : String) (v : α) (x : String)
    (hx : x ≠ k) : lookupA x (d ++ [(k, v)]) = lookupA x d := by
  induction d with
  | nil => rw [List.nil_append, lookupA_cons, if_neg (fun he => hx he.symm), lookupA_nil]
  | cons a t ih =>
    obtain ⟨ak, av⟩ := a
    rw [List.cons_append, lookupA_cons, lookupA_cons]
    by_cases hax : ak = x
    · rw [if_pos hax, if_pos hax]
    · rw [if_neg hax, if_neg hax]
      exact ih

lemma lookupA_updateOne_self (d : List (String × α)) (k : String) (v : α) :
    lookupA k (updateOne d k v) = some v := by
  unfold updateOne
  by_cases h : d.any (fun p => p.1 = k)
  · rw [if_pos h]
    exact lookupA_map_replace_self d k v ((any_key_iff d k).mp h)
  · rw [if_neg h]
    refine lookupA_append_single_self d k v (fun hm => h ?_)
    exact (any_key_iff d k).mpr hm

lemma lookupA_updateOne_ne (d : List (String × α)) (k : String) (v : α) (x : String)
    (hx : x ≠ k) : lookupA x (updateOne d k v) = lookupA x d := by
  unfold updateOne
  by_cases h : d.any (fun p => p.1 = k)
  · rw [if_pos h]
    exact lookupA_map_replace_ne d k v x hx
  · rw [if_neg h]
    exact lookupA_append_single_ne d k v x hx

lemma mem_keys_pyUpdate (d o : List (String × α)) (x : String) :
    x ∈ keysOf (pyUpdate d o) ↔ x ∈ keysOf d ∨ x ∈ keysOf o := by
  induction o generalizing d with
  | nil => simp [pyUpdate_nil, keysOf_nil]
  | cons p t ih =>
    rw [pyUpdate_cons, ih, mem_keys_updateOne, keysOf_cons, List.mem_cons]
    tauto

lemma lookupA_pyUpdate (d o : List (String × α)) (ho : (keysOf o).Nodup) (x : String) :
    lookupA x (pyUpdate d o) =
      if x ∈ keysOf o then lookupA x o else lookupA x d := by
  induction o generalizing d with
  | nil => simp [pyUpdate_nil, keysOf_nil, lookupA_nil]
  | cons p t ih =>
    obtain ⟨k, v⟩ := p
    rw [keysOf_cons] at ho
    obtain ⟨hk, hnd⟩ := List.nodup_cons.mp ho
    rw [pyUpdate_cons, ih _ hnd]
    by_cases hxt : x ∈ keysOf t
    · have hxk : ¬ k = x := fun he => hk (he ▸ hxt)
      rw [if_pos hxt, if_pos (by rw [keysOf_cons]; exact List.mem_cons.mpr (Or.inr hxt)),
        lookupA_cons, if_neg hxk]
    · rw [if_neg hxt]
      by_cases hxk : x = k
      · subst hxk
        rw [lookupA_updateOne_self,
          if_pos (by rw [keysOf_cons]; exact List.mem_cons.mpr (Or.inl rfl)),
          lookupA_cons, if_pos rfl]
      · rw [lookupA_updateOne_ne d k v x hxk,
          if_neg (by rw [keysOf_cons, List.mem_cons]; rintro (he | ht); exact hxk he; exact hxt ht)]

/-- Claim C5: for every known parameter-file type with defaults D and
override map O (no duplicate override keys, as for a Python dict), the
merged dictionary written by `create_mdp_file` has key set
keys(D) ∪ keys(O); each key takes the override value when present and the
default otherwise (unknown override keys are written verbatim); and two
successful generations of the same (type, overrides) write byte-identical
content. -/
theorem c5_mdp_override_semantics :
    ∀ (ty : String) (d o : List (String × MdpVal)),
      lookupA ty DEFAULT_MDP_PARAMS = some d → (keysOf o).Nodup →
      (∀ k, k ∈ keysOf (mdpMerged d o) ↔ k ∈ keysOf d ∨ k ∈ keysOf o) ∧
      (∀ k, lookupA k (mdpMerged d o) =
        if k ∈ keysOf o then lookupA k o else lookupA k d) ∧
      (∀ w₁ w₂ : WOracle, w₁ (ty ++ ".mdp") = none → w₂ (ty ++ ".mdp") = none →
        (create_mdp_file ty o w₁).content = some (mdpContent ty (mdpMerged d o)) ∧
        (create_mdp_file ty o w₁).content = (create_mdp_file ty o w₂).content) := by
  intro ty d o hty ho
  refine ⟨fun k => mem_keys_pyUpdate d o k, fun k => lookupA_pyUpdate d o ho k, ?_⟩
  intro w₁ w₂ h₁ h₂
  constructor
  · simp [create_mdp_file, hty, h₁]
  · simp [create_mdp_file, hty, h₁, h₂]

/-- Claim C5 witness: the contract applied to the `md` template with an
override of `nsteps` and with the unknown key `zzz-custom`. -/
theorem c5_mdp_override_semantics_witness :
    lookupA "md" DEFAULT_MDP_PARAMS = some mdDefaultsTable ∧
    (keysOf c5Overrides).Nodup ∧
    ("zzz-custom" ∈ keysOf (mdpMerged mdDefaultsTable c5Overrides) ↔
      "zzz-custom" ∈ keysOf mdDefaultsTable ∨ "zzz-custom" ∈ keysOf c5Overrides) ∧
    lookupA "nsteps" (mdpMerged mdDefaultsTable c5Overrides) =
      (if "nsteps" ∈ keysOf c5Overrides then lookupA "nsteps" c5Overrides
       else lookupA "nsteps" mdDefaultsTable) ∧
    (create_mdp_file "md" c5Overrides (fun _ => none)).content
      = some (mdpContent "md" (mdpMerged mdDefaultsTable c5Overrides)) := by
  have h := c5_mdp_override_semantics "md" mdDefaultsTable c5Overrides rfl (by decide)
  exact ⟨rfl, by decide, h.1 "zzz-custom", h.2.1 "nsteps",
    (h.2.2 (fun _ => none) (fun _ => none) rfl rfl).1⟩

/-- Claim C7: on a results file containing `VDWAALS : -45.2 3.1 0.4`
after the `DELTA TOTAL` delimiter line, parsing succeeds with
van-der-Waals component -45.2 and the detailed VDWAALS entry
(mean -45.2, std 3.1, std_err 0.4). -/
theorem c7_parse_vdwaals :
    parse_mmpbsa_results mmLines = .ok c7Expected ∧
    c7Expected.van_der_waals = -45.2 ∧
    lookupA "VDWAALS" c7Expected.detailed_results = some ⟨-45.2, 3.1, 0.4⟩ := by
  refine ⟨by decide, ?_, ?_⟩
  · show mkRat (-226) 5 = -45.2
    rw [Rat.mkRat_eq_div]
    norm_num
  · rw [show lookupA "VDWAALS" c7Expected.detailed_results
        = some ⟨mkRat (-226) 5, mkRat 31 10, mkRat 2 5⟩ from by decide]
    simp only [Option.some_inj, MmEntry.mk.injEq, Rat.mkRat_eq_div]
    norm_num

/-- Claim C8: on a structure file with residues ALA, GLY, HOH, XYZ the
candidate-ligand list is exactly XYZ; in general the reported list is
exactly the scanned residues not in the `STANDARD_RESIDUES` allowlist. -/
theorem c8_ligand_detection :
    (check_for_ligands pdbEnv "protein.pdb").1 = ⟨true, none, ["XYZ"]⟩ ∧
    ∀ (env : Env) (pdb : String) (c : Int) (o e : String),
      env (ligandScanCmd pdb) = .runs c o e → c = 0 →
      ∀ r, r ∈ (check_for_ligands env pdb).1.ligands ↔
        (r ∈ pySplitWS (pyStrip o) ∧ ¬ r ∈ STANDARD_RESIDUES) := by
  constructor
  · decide
  · intro env pdb c o e h hc r
    subst hc
    simp [check_for_ligands, shellRes, run_shell_command, h, List.mem_filter]

/-- Claim C8 witness: the filter characterization applied on the host
serving the four-residue structure file. -/
theorem c8_ligand_detection_witness :
    pdbEnv (ligandScanCmd "protein.pdb")
      = .runs 0 (renderLines (pdbResidueNames pdbLines)) "" ∧
    ("XYZ" ∈ (check_for_ligands pdbEnv "protein.pdb").1.ligands ↔
      ("XYZ" ∈ pySplitWS (pyStrip (renderLines (pdbResidueNames pdbLines))) ∧
       ¬ "XYZ" ∈ STANDARD_RESIDUES)) :=
  ⟨by decide,
   c8_ligand_detection.2 pdbEnv "protein.pdb" 0
     (renderLines (pdbResidueNames pdbLines)) "" (by decide) rfl "XYZ"⟩

/-! ### Claim C9 — DELTA TOTAL is always skipped -/

lemma splitOnChar_ne_nil (c : Char) (l : List Char) : splitOnChar c l ≠ [] := by
  induction l with
  | nil => simp [splitOnChar]
  | cons x xs ih =>
    rw [splitOnChar]
    by_cases hx : x = c
    · rw [if_pos hx]
      exact List.cons_ne_nil _ _
    · rw [if_neg hx]
      cases hs : splitOnChar c xs with
      | nil => exact absurd hs ih
      | cons h t => exact List.cons_ne_nil _ _

lemma headD_splitOnChar (c : Char) (l : List Char) :
    (splitOnChar c l).headD [] = l.takeWhile (fun x => !decide (x = c)) := by
  induction l with
  | nil => rfl
  | cons a t ih =>
    rw [splitOnChar, List.takeWhile_cons]
    by_cases ha : a = c
    · rw [if_pos ha]
      simp [ha]
    · rw [if_neg ha]
      cases hs : splitOnChar c t with
      | nil => exact absurd hs (splitOnChar_ne_nil c t)
      | cons h₁ t₁ =>
        rw [hs] at ih
        simp only [List.headD_cons] at ih
        simp [ha, ih]

lemma listStartsWith_iff (l p : List Char) :
    listStartsWith l p = true ↔ ∃ t, l = p ++ t := by
  induction p generalizing l with
  | nil =>
    simp [listStartsWith]
  | cons a ps ih =>
    cases l with
    | nil =>
      constructor
      · intro h
        exact absurd h (by rw [listStartsWith]; simp)
      · rintro ⟨t, ht⟩
        exact absurd ht (by simp)
    | cons b bs =>
      rw [listStartsWith, Bool.and_eq_true, decide_eq_true_eq, ih]
      constructor
      · rintro ⟨rfl, t, rfl⟩
        exact ⟨t, rfl⟩
      · rintro ⟨t, ht⟩
        rw [List.cons_append] at ht
        obtain ⟨h1, h2⟩ := List.cons_eq_cons.mp ht
        exact ⟨h1, t, h2⟩

lemma dropWhile_idem (p : Char → Bool) (l : List Char) :
    (l.dropWhile p).dropWhile p = l.dropWhile p := by
  induction l with
  | nil => rfl
  | cons a t ih =>
    rw [List.dropWhile_cons]
    by_cases h : p a = true
    · rw [if_pos h]
      exact ih
    · rw [if_neg h, List.dropWhile_cons, if_neg h]

lemma length_dropWhile_le (p : Char → Bool) (l : List Char) :
    (l.dropWhile p).length ≤ l.length := by
  induction l with
  | nil => simp
  | cons a t ih =>
    rw [List.dropWhile_cons]
    by_cases h : p a = true
    · rw [if_pos h]
      exact Nat.le_succ_of_le ih
    · rw [if_neg h]

lemma stripLeading_of_append (l x t : List Char) (h : stripLeading l = l)
    (he : l = x ++ t) : stripLeading x = x := by
  cases x with
  | nil => rfl
  | cons a xs =>
    subst he
    rw [List.cons_append] at h
    rw [stripLeading, List.dropWhile_cons] at h ⊢
    by_cases hpa : isSpc a = true
    · exfalso
      rw [if_pos hpa] at h
      have hle := length_dropWhile_le isSpc (xs ++ t)
      rw [h] at hle
      simp at hle
    · rw [if_neg hpa]

lemma stripTrailing_append (x : List Char) : ∃ t, x = stripTrailing x ++ t := by
  refine ⟨(x.reverse.takeWhile isSpc).reverse, ?_⟩
  rw [stripTrailing, ← List.reverse_append, List.takeWhile_append_dropWhile,
    List.reverse_reverse]

lemma stripLeading_stripChars (l : List Char) :
    stripLeading (stripChars l) = stripChars l := by
  obtain ⟨t, ht⟩ := stripTrailing_append (stripLeading l)
  exact stripLeading_of_append (stripLeading l) (stripChars l) t (dropWhile_idem isSpc l) ht

lemma strip_head_not_delta (line : List Char) (dt : List Char)
    (h : listStartsWith (stripChars line) dt = false) :
    stripChars ((splitOnChar colon (stripChars line)).headD []) ≠ dt := by
  intro he
  have hl' : stripLeading (stripChars line) = stripChars line := stripLeading_stripChars line
  rw [headD_splitOnChar] at he
  set l' := stripChars line with hl
  set k' := l'.takeWhile (fun x => !decide (x = colon)) with hk
  have hsplit : l' = k' ++ l'.dropWhile (fun x => !decide (x = colon)) :=
    (List.takeWhile_append_dropWhile _ _).symm
  have hlk : stripLeading k' = k' := stripLeading_of_append l' k' _ hl' hsplit
  have hstrip : stripChars k' = stripTrailing k' := by
    rw [stripChars, hlk]
  obtain ⟨t₁, ht₁⟩ := stripTrailing_append k'
  rw [hstrip] at he
  rw [he] at ht₁
  have hls : listStartsWith l' dt = true := by
    rw [listStartsWith_iff]
    refine ⟨t₁ ++ l'.dropWhile (fun x => !decide (x = colon)), ?_⟩
    conv_lhs => rw [hsplit, ht₁]
    rw [List.append_assoc]
  rw [hls] at h
  simp at h

lemma parseLine_preserves_no_delta (st st' : PPState) (line : String)
    (h : parseLine st line = .ok st')
    (hP : lookupA "DELTA TOTAL" st.results = none) :
    lookupA "DELTA TOTAL" st'.results = none := by
  unfold parseLine at h
  dsimp only at h
  split at h
  · cases h
    exact hP
  · split at h
    · cases h
      exact hP
    · split at h
      · cases h
        exact hP
      · split at h
        · cases h
          exact hP
        · split at h
          · split at h
            · split at h
              · cases h
                have hkey : String.mk (stripChars
                    ((splitOnChar colon (stripChars line.data)).headD [])) ≠ "DELTA TOTAL" := by
                  intro he
                  refine strip_head_not_delta line.data "DELTA TOTAL".data ?_ ?_
                  · rename_i hdt _ _ _
                    exact Bool.not_eq_true _ ▸ (by assumption)
                  · exact congrArg String.data he
                exact Eq.trans (lookupA_updateOne_ne _ _ _ _ (Ne.symm hkey)) hP
              · cases h
            · cases h
              exact hP
          · cases h
            exact hP

lemma foldlM_parseLine_no_delta (lines : List String) :
    ∀ (st : PPState), lookupA "DELTA TOTAL" st.results = none →
    ∀ res, List.foldlM parseLine st lines = .ok res →
      lookupA "DELTA TOTAL" res.results = none := by
  induction lines with
  | nil =>
    intro st h res hr
    rw [List.foldlM_nil] at hr
    cases hr
    exact h
  | cons a t ih =>
    intro st h res hr
    rw [List.foldlM_cons] at hr
    cases hp : parseLine st a with
    | error e =>
      rw [hp] at hr
      rw [show ((Except.error e : Except String PPState) >>=
            fun s => List.foldlM parseLine s t) = Except.error e from rfl] at hr
      exact Except.noConfusion hr
    | ok st₁ =>
      rw [hp] at hr
      rw [show ((Except.ok st₁ : Except String PPState) >>=
            fun s => List.foldlM parseLine s t) = List.foldlM parseLine st₁ t from rfl] at hr
      exact ih st₁ (parseLine_preserves_no_delta st st₁ a hp h) res hr

/-- Claim C9: whenever `parse_mmpbsa_results` succeeds, the returned
binding_energy is 0 — every line whose stripped text starts with
`DELTA TOTAL` is consumed as the table delimiter and skipped, so no
`DELTA TOTAL` entry is ever added to the detailed results and the total
falls back to the default 0. -/
theorem c9_binding_energy_always_zero :
    ∀ (lines : List String) (r : MmResults),
      parse_mmpbsa_results lines = .ok r →
      r.binding_energy = 0 ∧ lookupA "DELTA TOTAL" r.detailed_results = none := by
  intro lines r h
  unfold parse_mmpbsa_results parse_mmpbsa_lines at h
  cases hf : List.foldlM parseLine ⟨false, []⟩ lines with
  | error e =>
    rw [hf] at h
    simp only [Except.map] at h
    exact Except.noConfusion h
  | ok st =>
    rw [hf] at h
    have hres : lookupA "DELTA TOTAL" st.results = none :=
      foldlM_parseLine_no_delta lines ⟨false, []⟩ rfl st hf
    simp only [Except.map] at h
    cases h
    refine ⟨?_, hres⟩
    show getMean st.results "DELTA TOTAL" = 0
    rw [getMean, hres]
    rfl

/-- Claim C9 witness: the delimiter-only file parses successfully with
binding energy 0 and no `DELTA TOTAL` entry. -/
theorem c9_binding_energy_always_zero_witness :
    parse_mmpbsa_results ["DELTA TOTAL"] = .ok ⟨0, 0, 0, 0, 0, []⟩ ∧
    (⟨0, 0, 0, 0, 0, []⟩ : MmResults).binding_energy = 0 ∧
    lookupA "DELTA TOTAL" (⟨0, 0, 0, 0, 0, []⟩ : MmResults).detailed_results = none :=
  ⟨by decide,
   (c9_binding_energy_always_zero ["DELTA TOTAL"] ⟨0, 0, 0, 0, 0, []⟩ (by decide)).1,
   (c9_binding_energy_always_zero ["DELTA TOTAL"] ⟨0, 0, 0, 0, 0, []⟩ (by decide)).2⟩

/-! ### Claims C10, C1 and C4 — frame conditions and precondition guards -/

/-- Claim C10: `create_mmpbsa_index_file` leaves every field of the
MM-PBSA state (index_file, protein_group, ligand_group, complex_group
included) unchanged even when it succeeds, returning the parsed mapping
only to its caller; and `run_mmpbsa_calculation` reads the instance only
through its workspace — states agreeing on the workspace yield the same
result and the same commands, and the state is returned unchanged. -/
theorem c10_index_groups_not_registered :
    (∀ (s : MMPBSAState) (env : Env) (fx : String → Bool) (ps ls : String),
      (create_mmpbsa_index_file s env fx ps ls).2.1 = s) ∧
    (∀ (s₁ s₂ : MMPBSAState) (env : Env) (fx : String → Bool)
       (lm ix tp pg lg tr : String) (ow : Bool),
      s₁.workspace = s₂.workspace →
      (run_mmpbsa_calculation s₁ env fx lm ix tp pg lg tr ow).1
        = (run_mmpbsa_calculation s₂ env fx lm ix tp pg lg tr ow).1 ∧
      (run_mmpbsa_calculation s₁ env fx lm ix tp pg lg tr ow).2.2
        = (run_mmpbsa_calculation s₂ env fx lm ix tp pg lg tr ow).2.2 ∧
      (run_mmpbsa_calculation s₁ env fx lm ix tp pg lg tr ow).2.1 = s₁) := by
  constructor
  · intro s env fx ps ls
    unfold create_mmpbsa_index_file
    dsimp only
    repeat' split
    all_goals rfl
  · intro s₁ s₂ env fx lm ix tp pg lg tr ow hw
    refine ⟨?_, ?_, ?_⟩ <;>
      (unfold run_mmpbsa_calculation mmpbsaDir
       rw [hw]
       dsimp only
       repeat' split
       all_goals rfl)

/-- Claim C10 witness: the frame conditions applied at the fresh state
and at a state with all group fields populated. -/
theorem c10_index_groups_not_registered_witness :
    (create_mmpbsa_index_file (mmpbsaInit "/ws") envAllOk (fun _ => false) "Protein" "LIG").2.1
      = mmpbsaInit "/ws" ∧
    (run_mmpbsa_calculation (mmpbsaInit "/ws") envAllOk (fun _ => true)
        "l.mol2" "x.ndx" "md.tpr" "1" "13" "md.xtc" true).1
      = (run_mmpbsa_calculation mmAltState envAllOk (fun _ => true)
        "l.mol2" "x.ndx" "md.tpr" "1" "13" "md.xtc" true).1 ∧
    (run_mmpbsa_calculation (mmpbsaInit "/ws") envAllOk (fun _ => true)
        "l.mol2" "x.ndx" "md.tpr" "1" "13" "md.xtc" true).2.1 = mmpbsaInit "/ws" :=
  ⟨c10_index_groups_not_registered.1 (mmpbsaInit "/ws") envAllOk (fun _ => false) "Protein" "LIG",
   (c10_index_groups_not_registered.2 (mmpbsaInit "/ws") mmAltState envAllOk (fun _ => true)
      "l.mol2" "x.ndx" "md.tpr" "1" "13" "md.xtc" true rfl).1,
   (c10_index_groups_not_registered.2 (mmpbsaInit "/ws") mmAltState envAllOk (fun _ => true)
      "l.mol2" "x.ndx" "md.tpr" "1" "13" "md.xtc" true rfl).2.2⟩

/-- Claim C1 is false as stated: `run_npt_equilibration` performs no
precondition check, so on a fresh registry (topology and equilibration
artifacts absent) it still issues its two external invocations — with the
literal text `None` interpolated for the missing topology — and on
success even mutates the registry. -/
theorem c1_npt_counterexample :
    (proteinInit "/ws").topology_file = none ∧
    (proteinInit "/ws").minimized_file = none ∧
    (run_npt_equilibration (proteinInit "/ws") envAllOk wAllOk).2.2
      = ["gmx grompp -f npt.mdp -c nvt.gro -r nvt.gro -t nvt.cpt -p None -o npt.tpr",
         "gmx mdrun -v -deffnm npt"] ∧
    (run_npt_equilibration (proteinInit "/ws") envAllOk wAllOk).2.1.equilibrated_file
      = some "npt.gro" := by
  refine ⟨rfl, rfl, by decide, by decide⟩

/-- Claim C1 (amended): every protein workflow step method that guards
its preconditions — generate_topology, define_simulation_box,
solvate_system, add_ions, run_energy_minimization, run_nvt_equilibration,
run_production_md — returns success=false with a message naming the
missing artifact, issues no external invocation, and leaves the registry
unchanged when a required upstream artifact is absent;
run_npt_equilibration (and the analysis steps) perform no such check. -/
theorem c1_precondition_guards :
    (∀ (s : ProteinState) (env : Env) (ff wm : String), s.protein_file = none →
      generate_topology s env ff wm
        = (⟨false, some "No protein file has been set"⟩, s, [])) ∧
    (∀ (s : ProteinState) (env : Env) (d bt : String), s.box_file = none →
      define_simulation_box s env d bt
        = (⟨false, some "No protein structure file has been processed"⟩, s, [])) ∧
    (∀ (s : ProteinState) (env : Env),
      s.box_file = none ∨ s.topology_file = none →
      solvate_system s env = (⟨false, some "Box file or topology file not defined"⟩, s, [])) ∧
    (∀ (s : ProteinState) (env : Env) (w : WOracle) (conc : String) (n : Bool),
      s.solvated_file = none ∨ s.topology_file = none →
      add_ions s env w conc n
        = (⟨false, some "Solvated file or topology file not defined"⟩, s, [])) ∧
    (∀ (s : ProteinState) (env : Env) (w : WOracle),
      s.solvated_file = none ∨ s.topology_file = none →
      run_energy_minimization s env w
        = (⟨false, some "Solvated file or topology file not defined"⟩, s, [])) ∧
    (∀ (s : ProteinState) (env : Env) (w : WOracle),
      s.minimized_file = none ∨ s.topology_file = none →
      run_nvt_equilibration s env w
        = (⟨false, some "Minimized file or topology file not defined"⟩, s, [])) ∧
    (∀ (s : ProteinState) (env : Env) (w : WOracle) (len : ℚ),
      s.equilibrated_file = none ∨ s.topology_file = none →
      run_production_md s env w len
        = (⟨false, some "Equilibrated file or topology file not defined"⟩, s, [])) := by
  refine ⟨?_, ?_, ?_, ?_, ?_, ?_, ?_⟩
  · intro s env ff wm h
    simp [generate_topology, h, optFalsy]
  · intro s env d bt h
    simp [define_simulation_box, h, optFalsy]
  · intro s env h
    rcases h with h | h <;> simp [solvate_system, h, optFalsy]
  · intro s env w conc n h
    rcases h with h | h <;> simp [add_ions, h, optFalsy]
  · intro s env w h
    rcases h with h | h <;> simp [run_energy_minimization, h, optFalsy]
  · intro s env w h
    rcases h with h | h <;> simp [run_nvt_equilibration, h, optFalsy]
  · intro s env w len h
    rcases h with h | h <;> simp [run_production_md, h, optFalsy]

/-- Claim C1 witness: the guards applied at the freshly initialized
registry. -/
theorem c1_precondition_guards_witness :
    (proteinInit "/ws").protein_file = none ∧
    generate_topology (proteinInit "/ws") envAllOk "CHARMM36" "tip3p"
      = (⟨false, some "No protein file has been set"⟩, proteinInit "/ws", []) ∧
    solvate_system (proteinInit "/ws") envAllOk
      = (⟨false, some "Box file or topology file not defined"⟩, proteinInit "/ws", []) :=
  ⟨rfl,
   c1_precondition_guards.1 (proteinInit "/ws") envAllOk "CHARMM36" "tip3p" rfl,
   c1_precondition_guards.2.2.1 (proteinInit "/ws") envAllOk (Or.inl rfl)⟩

/-- Claim C4 is false as stated: `set_ligand` records the ligand name on
the instance before running any command, so when its first external
invocation fails the call returns success=false with the stderr embedded
but the registry field `ligand_name` has changed
(`set_protein_file` has the same defect for `protein_file`). -/
theorem c4_set_ligand_counterexample :
    plReady.ligand_name = none ∧
    (set_ligand plReady envMkdirFails wAllOk "XYZ").1
      = ⟨false, some "Failed to create directories: mkdir exploded"⟩ ∧
    (set_ligand plReady envMkdirFails wAllOk "XYZ").2.1.ligand_name = some "XYZ" := by
  refine ⟨rfl, by decide, by decide⟩

/-- Claim C4 (amended): for each core protein workflow step method —
generate_topology, define_simulation_box, solvate_system, add_ions,
run_energy_minimization, run_nvt_equilibration, run_npt_equilibration,
run_production_md — a failing external invocation at any position in the
method's command sequence yields success=false with the tool's stderr
embedded in the error message, no further commands, and a registry
identical to the pre-call registry.  The setters `set_protein_file` and
`set_ligand` (which record the chosen name before invoking) and the
protein-ligand solvate/add-ions overrides (which keep the parent's
successful mutation when the follow-up index-group step fails) are
excluded. -/
theorem c4_failure_frame :
    (∀ (s : ProteinState) (env : Env) (ff wm ffn : String),
      optFalsy s.protein_file = false → lookupA ff FORCE_FIELDS = some ffn →
      (shellRes env (pdb2gmxCmd s ffn wm)).success = false →
      generate_topology s env ff wm =
        (⟨false, some ("Failed to generate topology: "
          ++ (shellRes env (pdb2gmxCmd s ffn wm)).stderr)⟩, s, [pdb2gmxCmd s ffn wm])) ∧
    (∀ (s : ProteinState) (env : Env) (d bt : String),
      optFalsy s.box_file = false →
      (shellRes env (editconfCmd s d bt)).success = false →
      define_simulation_box s env d bt =
        (⟨false, some ("Failed to define simulation box: "
          ++ (shellRes env (editconfCmd s d bt)).stderr)⟩, s, [editconfCmd s d bt])) ∧
    (∀ (s : ProteinState) (env : Env),
      optFalsy s.box_file = false → optFalsy s.topology_file = false →
      (shellRes env (solvateCmd s)).success = false →
      solvate_system s env =
        (⟨false, some ("Failed to solvate the protein: "
          ++ (shellRes env (solvateCmd s)).stderr)⟩, s, [solvateCmd s])) ∧
    (∀ (s : ProteinState) (env : Env) (w : WOracle) (conc : String) (n : Bool),
      optFalsy s.solvated_file = false → optFalsy s.topology_file = false →
      (create_mdp_file "ions" [] w).success = true →
      (shellRes env (gromppIonsCmd s)).success = false →
      add_ions s env w conc n =
        (⟨false, some ("Failed to prepare for adding ions: "
          ++ (shellRes env (gromppIonsCmd s)).stderr)⟩, s, [gromppIonsCmd s])) ∧
    (∀ (s : ProteinState) (env : Env) (w : WOracle) (conc : String) (n : Bool),
      optFalsy s.solvated_file = false → optFalsy s.topology_file = false →
      (create_mdp_file "ions" [] w).success = true →
      (shellRes env (gromppIonsCmd s)).success = true →
      (shellRes env (genionCmd s conc n)).success = false →
      add_ions s env w conc n =
        (⟨false, some ("Failed to add ions: "
          ++ (shellRes env (genionCmd s conc n)).stderr)⟩, s,
          [gromppIonsCmd s, genionCmd s conc n])) ∧
    (∀ (s : ProteinState) (env : Env) (w : WOracle),
      optFalsy s.solvated_file = false → optFalsy s.topology_file = false →
      (create_mdp_file "em" [] w).success = true →
      (shellRes env (gromppEmCmd s)).success = false →
      run_energy_minimization s env w =
        (⟨false, some ("Failed to prepare energy minimization: "
          ++ (shellRes env (gromppEmCmd s)).stderr)⟩, s, [gromppEmCmd s])) ∧
    (∀ (s : ProteinState) (env : Env) (w : WOracle),
      optFalsy s.solvated_file = false → optFalsy s.topology_file = false →
      (create_mdp_file "em" [] w).success = true →
      (shellRes env (gromppEmCmd s)).success = true →
      (shellRes env "gmx mdrun -v -deffnm em").success = false →
      run_energy_minimization s env w =
        (⟨false, some ("Energy minimization failed: "
          ++ (shellRes env "gmx mdrun -v -deffnm em").stderr)⟩, s,
          [gromppEmCmd s, "gmx mdrun -v -deffnm em"])) ∧
    (∀ (s : ProteinState) (env : Env) (w : WOracle),
      optFalsy s.minimized_file = false → optFalsy s.topology_file = false →
      (create_mdp_file "nvt" [] w).success = true →
      (shellRes env (gromppNvtCmd s)).success = false →
      run_nvt_equilibration s env w =
        (⟨false, some ("Failed to prepare NVT equilibration: "
          ++ (shellRes env (gromppNvtCmd s)).stderr)⟩, s, [gromppNvtCmd s])) ∧
    (∀ (s : ProteinState) (env : Env) (w : WOracle),
      optFalsy s.minimized_file = false → optFalsy s.topology_file = false →
      (create_mdp_file "nvt" [] w).success = true →
      (shellRes env (gromppNvtCmd s)).success = true →
      (shellRes env "gmx mdrun -v -deffnm nvt").success = false →
      run_nvt_equilibration s env w =
        (⟨false, some ("NVT equilibration failed: "
          ++ (shellRes env "gmx mdrun -v -deffnm nvt").stderr)⟩, s,
          [gromppNvtCmd s, "gmx mdrun -v -deffnm nvt"])) ∧
    (∀ (s : ProteinState) (env : Env) (w : WOracle),
      (create_mdp_file "npt" [] w).success = true →
      (shellRes env (gromppNptCmd s)).success = false →
      run_npt_equilibration s env w =
        (⟨false, some ("Failed to prepare NPT equilibration: "
          ++ (shellRes env (gromppNptCmd s)).stderr)⟩, s, [gromppNptCmd s])) ∧
    (∀ (s : ProteinState) (env : Env) (w : WOracle),
      (create_mdp_file "npt" [] w).success = true →
      (shellRes env (gromppNptCmd s)).success = true →
      (shellRes env "gmx mdrun -v -deffnm npt").success = false →
      run_npt_equilibration s env w =
        (⟨false, some ("NPT equilibration failed: "
          ++ (shellRes env "gmx mdrun -v -deffnm npt").stderr)⟩, s,
          [gromppNptCmd s, "gmx mdrun -v -deffnm npt"])) ∧
    (∀ (s : ProteinState) (env : Env) (w : WOracle) (len : ℚ),
      optFalsy s.equilibrated_file = false → optFalsy s.topology_file = false →
      (create_mdp_file "md" [("nsteps", MdpVal.vI (nstepsOfLength len))] w).success = true →
      (shellRes env (gromppMdCmd s)).success = false →
      run_production_md s env w len =
        (⟨false, some ("Failed to prepare production MD: "
          ++ (shellRes env (gromppMdCmd s)).stderr)⟩, s, [gromppMdCmd s])) ∧
    (∀ (s : ProteinState) (env : Env) (w : WOracle) (len : ℚ),
      optFalsy s.equilibrated_file = false → optFalsy s.topology_file = false →
      (create_mdp_file "md" [("nsteps", MdpVal.vI (nstepsOfLength len))] w).success = true →
      (shellRes env (gromppMdCmd s)).success = true →
      (shellRes env "gmx mdrun -v -deffnm md").success = false →
      run_production_md s env w len =
        (⟨false, some ("Production MD failed: "
          ++ (shellRes env "gmx mdrun -v -deffnm md").stderr)⟩, s,
          [gromppMdCmd s, "gmx mdrun -v -deffnm md"])) := by
  refine ⟨?_, ?_, ?_, ?_, ?_, ?_, ?_, ?_, ?_, ?_, ?_, ?_, ?_⟩
  · intro s env ff wm ffn h1 h2 h3
    simp [generate_topology, h1, h2, h3]
  · intro s env d bt h1 h2
    simp [define_simulation_box, h1, h2]
  · intro s env h1 h2 h3
    simp [solvate_system, h1, h2, h3]
  · intro s env w conc n h1 h2 h3 h4
    simp [add_ions, h1, h2, h3, h4]
  · intro s env w conc n h1 h2 h3 h4 h5
    simp [add_ions, h1, h2, h3, h4, h5]
  · intro s env w h1 h2 h3 h4
    simp [run_energy_minimization, h1, h2, h3, h4]
  · intro s env w h1 h2 h3 h4 h5
    simp [run_energy_minimization, h1, h2, h3, h4, h5]
  · intro s env w h1 h2 h3 h4
    simp [run_nvt_equilibration, h1, h2, h3, h4]
  · intro s env w h1 h2 h3 h4 h5
    simp [run_nvt_equilibration, h1, h2, h3, h4, h5]
  · intro s env w h1 h2
    simp [run_npt_equilibration, h1, h2]
  · intro s env w h1 h2 h3
    simp [run_npt_equilibration, h1, h2, h3]
  · intro s env w len h1 h2 h3 h4
    simp [run_production_md, h1, h2, h3, h4]
  · intro s env w len h1 h2 h3 h4 h5
    simp [run_production_md, h1, h2, h3, h4, h5]

/-- Claim C4 witness: the failure frame applied at a fully populated
registry on a host where every tool exits nonzero. -/
theorem c4_failure_frame_witness :
    optFalsy sReady.box_file = false ∧
    (shellRes envToolFails (solvateCmd sReady)).success = false ∧
    solvate_system sReady envToolFails =
      (⟨false, some ("Failed to solvate the protein: "
        ++ (shellRes envToolFails (solvateCmd sReady)).stderr)⟩, sReady,
        [solvateCmd sReady]) ∧
    run_npt_equilibration sReady envToolFails wAllOk =
      (⟨false, some ("Failed to prepare NPT equilibration: "
        ++ (shellRes envToolFails (gromppNptCmd sReady)).stderr)⟩, sReady,
        [gromppNptCmd sReady]) :=
  ⟨rfl, by decide,
   c4_failure_frame.2.2.1 sReady envToolFails rfl rfl (by decide),
   (c4_failure_frame.2.2.2.2.2.2.2.2.2.1) sReady envToolFails wAllOk (by decide) (by decide)⟩

end GromacsCopilot
